import Mathlib

/-!
Verification of the LeafSense TradFi browser dashboard client.

This file shallowly embeds the client-side refresh/transform/render pipeline
of the repository's dashboard scripts:

* `web/static/js/dashboard.js` — the fetch/Promise variant: `toggleTheme`,
  `refreshData`, `loadMarketData`, `updateMarketDisplay`,
  `initGammaExposureChart`, `createGammaExposurePlot`,
  `updateGammaExposureChart`.
* the jQuery variant appended to `web/static/css/styles.css` — the
  `pauseUpdates`-gated variant: `refreshData`, `loadMarketMetrics`,
  `loadGammaExposureData`.

JavaScript numbers are modelled as `Int` (all properties proved here are
structural / sign / ordering facts that do not depend on floating-point
rounding).  Nullable JSON fields are `Option Int`; the JS idiom `v || 0`
becomes `Option.getD · 0`.  `Math.random()` streams are modelled as an
explicit oracle argument `rand : Nat → Int`, so that (non-)dependence on
randomness is a provable statement.  DOM and network effects are modelled
as explicit state records: issuing a fetch appends the request to an
append-only log, and promise resolution is a separate state transformer
applied to the fetch's result.
-/

namespace LeafSense

/-- One element of the JSON array returned by `GET /api/gamma-exposure/`
(see `createGammaExposurePlot`, dashboard.js lines 211–220): nullable
numeric exposures keyed by strike. -/
structure ExposureRecord where
  strike_price : Int
  call_gamma_exposure : Option Int
  put_gamma_exposure : Option Int
  total_gamma_exposure : Option Int
deriving DecidableEq, Repr

/-- The JS idiom `v || 0` applied to a nullable numeric field: `null` and
`undefined` become `0`; the number `0` is falsy in JS and also becomes `0`,
so on integer inputs `getD 0` is an exact model. -/
def jsNumOr (x : Option Int) : Int := x.getD 0

/-- The comparator of `dashboard.js` line 200:
`(a, b) => a.strike_price - b.strike_price`, i.e. ascending order by
strike price. -/
def recLE (a b : ExposureRecord) : Prop := a.strike_price ≤ b.strike_price

instance : DecidableRel recLE := fun a b => Int.decLe a.strike_price b.strike_price

instance : IsTotal ExposureRecord recLE := ⟨fun a b => Int.le_total a.strike_price b.strike_price⟩

instance : IsTrans ExposureRecord recLE := ⟨fun _ _ _ h h' => le_trans h h'⟩

/-- Model of `[...exposureData].sort((a, b) => a.strike_price - b.strike_price)`
(dashboard.js lines 199–201).  `Array.prototype.sort` is required to be
stable, so a stable insertion sort by the same ascending-strike comparator
is a faithful model. -/
def sortByStrike (l : List ExposureRecord) : List ExposureRecord :=
  List.insertionSort recLE l

/-- Model of `const step = Math.max(1, Math.floor(arr.length / 20))`
(dashboard.js line 206). -/
def downsampleStep (n : Nat) : Nat := max 1 (n / 20)

/-- The downsampling filter of dashboard.js lines 204–208:
`sortedData.filter((item, index, arr) => index % step === 0)` where
`step = downsampleStep arr.length`.  Index-based decimation: an element is
kept iff its index is a multiple of `step`. -/
def downsample (l : List ExposureRecord) : List ExposureRecord :=
  (l.enum.filter (fun p => p.1 % downsampleStep l.length == 0)).map Prod.snd

/-- The put-channel transform of dashboard.js lines 215–217:
`-Math.abs(item.put_gamma_exposure || 0)` ("Make puts negative for
visualization"). -/
def putTransform (x : Option Int) : Int := -|jsNumOr x|

/-- The chart-ready series extracted by `createGammaExposurePlot`
(dashboard.js lines 195–288): four parallel numeric sequences plus the
plot title.  `isSample` records which branch of the
`exposureData && exposureData.length > 0` conditional produced the series;
in the source the sample branch is observable through the
`"Calls (Sample)"` / `"Puts (Sample)"` trace names. -/
structure ChartSeries where
  strikes : List Int
  calls : List Int
  puts : List Int
  net : List Int
  title : String
  isSample : Bool
deriving DecidableEq, Repr

/-- The hard-coded sample strikes of dashboard.js line 266. -/
def sampleStrikes : List Int := [5550, 5600, 5650, 5700, 5750]

/-- The data-processing core of `createGammaExposurePlot`
(dashboard.js lines 195–288), as the spec's pure
`buildSeries(records, expiryLabel)`.

Non-empty branch (lines 197–220): stable sort ascending by strike,
index-based downsampling, then the four parallel extractions
(`call_gamma_exposure || 0`, `-Math.abs(put_gamma_exposure || 0)`,
`total_gamma_exposure || 0`).

Empty branch (lines 264–288): the hard-coded sample strikes with
`Math.random()`-derived bar values (modelled through the `rand` oracle:
the JS draws `Math.random() * 100 + 20` for call bar `i` and
`-Math.random() * 100 - 20` for put bar `i`; the affine float scaling is
absorbed into the oracle since no claim constrains the sample values) and
no net trace. -/
def buildSeries (records : List ExposureRecord) (expiry : String) (rand : Nat → Int) :
    ChartSeries :=
  if records.length > 0 then
    let filteredData := downsample (sortByStrike records)
    { strikes := filteredData.map (fun item => item.strike_price)
      calls := filteredData.map (fun item => jsNumOr item.call_gamma_exposure)
      puts := filteredData.map (fun item => putTransform item.put_gamma_exposure)
      net := filteredData.map (fun item => jsNumOr item.total_gamma_exposure)
      title := "Gamma Exposure by Strike (" ++ expiry ++ ")"
      isSample := false }
  else
    { strikes := sampleStrikes
      calls := (List.range sampleStrikes.length).map (fun i => rand (2 * i))
      puts := (List.range sampleStrikes.length).map (fun i => rand (2 * i + 1))
      net := []
      title := "Gamma Exposure by Strike (" ++ expiry ++ ")"
      isSample := true }

/-- One Plotly trace as pushed by `createGammaExposurePlot`
(dashboard.js lines 222–263, 270–287): strike labels on `y`, numeric
values on `x`, a display name, a trace kind (`"bar"` or `"scatter"`) and a
marker/line color.  `ttype` renders the JS key `type` (a Lean keyword). -/
structure Trace where
  y : List Int
  x : List Int
  name : String
  ttype : String
  color : String
deriving DecidableEq, Repr

/-- The theme-dependent layout parameters of `createGammaExposurePlot`
(dashboard.js lines 291–322); only the color fields depend on
`isDarkMode`. -/
structure Layout where
  title : String
  zerolinecolor : String
  gridcolor : String
  plot_bgcolor : String
  paper_bgcolor : String
  font_color : String
deriving DecidableEq, Repr

/-- The declarative plot description handed to `Plotly.newPlot`
(dashboard.js line 333). -/
structure Plot where
  data : List Trace
  layout : Layout
deriving DecidableEq, Repr

/-- Model of `createGammaExposurePlot(container, exposureData, expiry)`
(dashboard.js lines 191–334), minus the opaque `Plotly.newPlot` call: the
theme is read from the DOM (`isDarkMode`), the series is computed as in
`buildSeries`, and the traces/layout are assembled.  Trace colors
(lines 230, 243, 256) are hard-coded constants; only the layout colors
(lines 297–309) depend on the theme. -/
def createGammaExposurePlot (isDarkMode : Bool) (exposureData : List ExposureRecord)
    (expiry : String) (rand : Nat → Int) : Plot :=
  let s := buildSeries exposureData expiry rand
  { data :=
      if exposureData.length > 0 then
        [ { y := s.strikes, x := s.calls, name := "Calls (Long)", ttype := "bar",
            color := "#4caf50" },
          { y := s.strikes, x := s.puts, name := "Puts (Short)", ttype := "bar",
            color := "#f44336" },
          { y := s.strikes, x := s.net, name := "Net Gamma", ttype := "scatter",
            color := "#2196f3" } ]
      else
        [ { y := s.strikes, x := s.calls, name := "Calls (Sample)", ttype := "bar",
            color := "#4caf50" },
          { y := s.strikes, x := s.puts, name := "Puts (Sample)", ttype := "bar",
            color := "#f44336" } ]
    layout :=
      { title := s.title
        zerolinecolor := if isDarkMode then "#e0e0e0" else "#333333"
        gridcolor := if isDarkMode then "#3a4254" else "#d1e0d4"
        plot_bgcolor := if isDarkMode then "#242937" else "#ffffff"
        paper_bgcolor := if isDarkMode then "#242937" else "#ffffff"
        font_color := if isDarkMode then "#e0e0e0" else "#333333" } }

/-! ### Client state machine — `dashboard.js` (fetch/Promise variant)

Network effects are modelled by an append-only request log; the `.then` /
`.catch` continuations of a fetch are modelled as separate resolution
transformers taking the fetch's result (`Except FetchError _`).  A request
is "in flight" between the transformer that issued it and the application
of its resolution transformer. -/

/-- The endpoints the client can fetch (dashboard.js lines 69 and 165). -/
inductive Request where
  | marketMetrics : Request
  | gammaExposure (expiryFilter : String) : Request
deriving DecidableEq, Repr

/-- The error taxonomy of spec section 7.  In `dashboard.js` a transport failure, a non-ok
response (`throw new Error("Network response was not ok")`, lines 71–73 and
167–169) and a JSON decode failure all reach the same `.catch` handler;
the distinction never changes control flow. -/
inductive FetchError where
  | network : FetchError
  | serverStatus : FetchError
  | decode : FetchError
deriving DecidableEq, Repr

/-- The payload of `GET /api/market-metrics/` as consumed by
`updateMarketDisplay` (dashboard.js lines 84–125).  The `timestamp`
field's locale-formatted display (lines 117–124) is wall-clock/locale
dependent and is not modelled; no claim concerns it. -/
structure MarketData where
  spot_price : Int
  price_change : Int
  price_change_pct : Int
deriving DecidableEq, Repr

/-- The `#gamma-exposure-chart` container contents
(dashboard.js lines 160–188): the loading placeholder, the error message,
or a rendered Plotly chart. -/
inductive GammaView where
  | empty : GammaView
  | loading : GammaView
  | errorMsg : GammaView
  | chart (p : Plot) : GammaView
deriving DecidableEq, Repr

/-- The mutable browser state touched by `dashboard.js`: the body theme
class, the persisted `localStorage["theme"]`, the `#expiry-select` value,
the append-only fetch log, and the DOM nodes written by
`updateMarketDisplay` and `initGammaExposureChart`. -/
structure ClientState where
  darkTheme : Bool
  storedTheme : Option String
  selectedExpiry : String
  requests : List Request
  spotValue : Option Int
  changePct : Option Int
  changeAbs : Option Int
  gamma : GammaView
deriving DecidableEq, Repr

/-- Model of `loadMarketData()` (dashboard.js lines 68–82): unconditionally issues
one fetch of `/api/market-metrics/`.  The `.then`/`.catch` continuation is
`resolveMarketMetrics`. -/
def loadMarketData (s : ClientState) : ClientState :=
  { s with requests := s.requests ++ [Request.marketMetrics] }

/-- The `.then`/`.catch` continuation of `loadMarketData`: on success
`updateMarketDisplay(data)` (dashboard.js lines 84–115) writes the spot
price, percent change and absolute change; on failure only
`console.error` runs (lines 79–81) — the DOM is untouched. -/
def resolveMarketMetrics (res : Except FetchError MarketData) (s : ClientState) :
    ClientState :=
  match res with
  | Except.ok d =>
      { s with spotValue := some d.spot_price
               changePct := some d.price_change_pct
               changeAbs := some d.price_change }
  | Except.error _ => s

/-- Model of `initGammaExposureChart()` (dashboard.js lines 151–178): reads the
current expiry selection, replaces the container with the loading
placeholder, and unconditionally issues one fetch of
`/api/gamma-exposure/?expiry_filter=...`.  The continuation is
`resolveGammaExposure`. -/
def initGammaExposureChart (s : ClientState) : ClientState :=
  { s with gamma := GammaView.loading
           requests := s.requests ++ [Request.gammaExposure s.selectedExpiry] }

/-- The `.then`/`.catch` continuation of the gamma-exposure fetch
(dashboard.js lines 172–188): on success the container is cleared and
`createGammaExposurePlot` renders into it; on failure the container shows
the error message.  Either way the error never escapes the handler. -/
def resolveGammaExposure (res : Except FetchError (List ExposureRecord))
    (rand : Nat → Int) (s : ClientState) : ClientState :=
  match res with
  | Except.ok data =>
      { s with gamma :=
          GammaView.chart (createGammaExposurePlot s.darkTheme data s.selectedExpiry rand) }
  | Except.error _ => { s with gamma := GammaView.errorMsg }

/-- Model of `refreshData()` (dashboard.js lines 62–66), the 60-second timer
callback: calls `loadMarketData()` then `initGammaExposureChart()`,
with no guard of any kind. -/
def refreshData (s : ClientState) : ClientState :=
  initGammaExposureChart (loadMarketData s)

/-- Model of `toggleTheme()` (dashboard.js lines 37–51): flips the body class
between `dark-mode` and `light-mode`, persists the new value in
`localStorage`, updates the toggle icon (not modelled — pure cosmetics),
re-creates the TradingView widget (an external embed, not an API fetch),
and calls `initGammaExposureChart()` — which fetches. -/
def toggleTheme (s : ClientState) : ClientState :=
  initGammaExposureChart
    (if s.darkTheme then
      { s with darkTheme := false, storedTheme := some "light" }
    else
      { s with darkTheme := true, storedTheme := some "dark" })

/-! ### Client state machine — `pauseUpdates` variant (jQuery script
appended to `web/static/css/styles.css`)

This is the variant the spec's §9 open question calls the "pause-gate
version"; it holds the `pauseUpdates` flag (styles.css line 412) checked
by `loadMarketMetrics` (line 454), `loadGammaExposureData` (line 470) and
`refreshData` (line 587). -/

/-- The global mutable state of the jQuery variant: `pauseUpdates`,
`currentExpiryFilter`, `darkMode` (styles.css lines 412–414), the fetch
log, and the DOM writes of `updateMetricsDisplay` /
`drawGammaExposureChart`. -/
structure DashState where
  pauseUpdates : Bool
  currentExpiryFilter : String
  darkMode : Bool
  requests : List Request
  metricText : Option (Int × Int)
  gammaDrawn : Option (List Int × List Int)
deriving DecidableEq, Repr

/-- Model of `loadMarketMetrics()` (styles.css lines 453–466):
`if (pauseUpdates) return;` — otherwise one `$.ajax` GET of
`/api/market-metrics`. -/
def loadMarketMetrics (s : DashState) : DashState :=
  if s.pauseUpdates then s
  else { s with requests := s.requests ++ [Request.marketMetrics] }

/-- Model of `loadGammaExposureData()` (styles.css lines 469–484):
`if (pauseUpdates) return;` — otherwise one `$.ajax` GET of
`/api/gamma-exposure` with the current expiry filter. -/
def loadGammaExposureData (s : DashState) : DashState :=
  if s.pauseUpdates then s
  else { s with requests := s.requests ++ [Request.gammaExposure s.currentExpiryFilter] }

/-- Model of `refreshData()` of the jQuery variant (styles.css lines 586–591):
`if (!pauseUpdates) { loadMarketMetrics(); loadGammaExposureData(); }`. -/
def refreshDataPaused (s : DashState) : DashState :=
  if !s.pauseUpdates then loadGammaExposureData (loadMarketMetrics s) else s

/-! ### Concrete states and inputs used by witnesses and counterexamples -/

/-- A concrete freshly-loaded client state: dark theme, expiry `"All"`,
no requests issued yet, nothing rendered. -/
def initState : ClientState :=
  { darkTheme := true, storedTheme := none, selectedExpiry := "All", requests := [],
    spotValue := none, changePct := none, changeAbs := none, gamma := GammaView.empty }

/-- A concrete fully-rendered quiescent state: one cycle has run and both
of its fetches have resolved successfully, so a chart is rendered and no
fetch is pending. -/
def renderedState : ClientState :=
  resolveGammaExposure (Except.ok [⟨90, some 1, some 2, some 3⟩]) (fun _ => 0)
    (resolveMarketMetrics (Except.ok ⟨100, 1, 1⟩) (refreshData initState))

/-- A 21-record input with distinct strikes `0, 1, …, 20`, used to witness
the `N > 20` downsampling claim. -/
def c4input : List ExposureRecord :=
  (List.range 21).map (fun i => ⟨Int.ofNat i, none, none, none⟩)

/-- The two-record example input of the spec's §8:
`[{strike:100, call:5, put:3, total:2}, {strike:90, call:1, put:9, total:-8}]`. -/
def exampleInput : List ExposureRecord :=
  [⟨100, some 5, some 3, some 2⟩, ⟨90, some 1, some 9, some (-8)⟩]

/-! ### Helper lemmas -/

/-- Insertion sort preserves length. -/
lemma sortByStrike_length (l : List ExposureRecord) : (sortByStrike l).length = l.length :=
  (List.perm_insertionSort recLE l).length_eq

/-- The sort of `createGammaExposurePlot` is sorted for the ascending
strike comparator. -/
lemma sortByStrike_sorted (l : List ExposureRecord) :
    List.Sorted recLE (sortByStrike l) :=
  List.sorted_insertionSort recLE l

/-- Index-based decimation selects a sublist. -/
lemma downsample_sublist (l : List ExposureRecord) : (downsample l).Sublist l := by
  have h := (List.filter_sublist
    (p := fun p => p.1 % downsampleStep l.length == 0) l.enum).map Prod.snd
  rwa [List.enum_map_snd] at h

/-- The length of the decimated list equals the number of retained
indices. -/
lemma downsample_length (l : List ExposureRecord) :
    (downsample l).length =
      ((List.range l.length).filter (fun i => i % downsampleStep l.length == 0)).length := by
  unfold downsample
  rw [List.length_map]
  calc (l.enum.filter (fun p => p.1 % downsampleStep l.length == 0)).length
      = (List.map Prod.fst (l.enum.filter
          ((fun i => i % downsampleStep l.length == 0) ∘ Prod.fst))).length :=
        (List.length_map _ _).symm
    _ = ((l.enum.map Prod.fst).filter (fun i => i % downsampleStep l.length == 0)).length := by
        rw [← List.filter_map]
    _ = ((List.range l.length).filter (fun i => i % downsampleStep l.length == 0)).length := by
        rw [List.enum_map_fst]

/-- Counting multiples of `s` below `n`: the exact ceiling formula. -/
lemma length_filter_range_mod (s n : Nat) :
    ((List.range n).filter (fun i => i % s == 0)).length =
      n / s + (if n % s = 0 then 0 else 1) := by
  induction n with
  | zero => simp
  | succ n ih =>
    rw [List.range_succ, List.filter_append, List.length_append, ih, Nat.succ_div]
    have hiff : (n + 1) % s = 0 ↔ s ∣ n + 1 := Nat.dvd_iff_mod_eq_zero.symm
    by_cases hA : n % s = 0 <;> by_cases hB : s ∣ n + 1 <;>
      simp [hA, hB, List.filter_cons, hiff]

/-- Decimation of a non-empty list always keeps the head (index `0`
satisfies `0 % step == 0`). -/
lemma downsample_cons (a : ExposureRecord) (t : List ExposureRecord) :
    ∃ t', downsample (a :: t) = a :: t' := by
  refine ⟨((List.enumFrom 1 t).filter
    (fun p => p.1 % downsampleStep (a :: t).length == 0)).map Prod.snd, ?_⟩
  simp [downsample, List.enum_cons, List.filter_cons]

/-- The first element of an insertion-sorted list is minimal for the
strike comparator among all of the input. -/
lemma sortByStrike_head_min {l : List ExposureRecord} {a : ExposureRecord}
    {t : List ExposureRecord} (h : sortByStrike l = a :: t) :
    ∀ rec ∈ l, a.strike_price ≤ rec.strike_price := by
  intro rec hrec
  have hmem : rec ∈ a :: t := by
    rw [← h]
    exact ((List.perm_insertionSort recLE l).mem_iff).mpr hrec
  rcases List.mem_cons.mp hmem with hEq | hTail
  · exact le_of_eq (congrArg ExposureRecord.strike_price hEq.symm)
  · have hs : List.Sorted recLE (a :: t) := h ▸ sortByStrike_sorted l
    exact List.rel_of_sorted_cons hs rec hTail

/-! ### Claim theorems -/

/-- C3: on the input `[{strike:100, call:5, put:3, total:2},
{strike:90, call:1, put:9, total:-8}]`, for any expiry label and any
random oracle, `buildSeries` returns strikes `[90, 100]`, calls `[1, 5]`,
puts `[-9, -3]`, net `[-8, 2]`: the records are stably sorted ascending by
strike, `step = max(1, floor(2/20)) = 1` keeps every record, and the put
channel is negated via `-abs`. -/
theorem C3_buildSeries_example (e : String) (r : Nat → Int) :
    (buildSeries [⟨100, some 5, some 3, some 2⟩, ⟨90, some 1, some 9, some (-8)⟩]
        e r).strikes = [90, 100] ∧
    (buildSeries [⟨100, some 5, some 3, some 2⟩, ⟨90, some 1, some 9, some (-8)⟩]
        e r).calls = [1, 5] ∧
    (buildSeries [⟨100, some 5, some 3, some 2⟩, ⟨90, some 1, some 9, some (-8)⟩]
        e r).puts = [-9, -3] ∧
    (buildSeries [⟨100, some 5, some 3, some 2⟩, ⟨90, some 1, some 9, some (-8)⟩]
        e r).net = [-8, 2] :=
  ⟨rfl, rfl, rfl, rfl⟩

/-- C5: every emitted put value is non-positive regardless of the input
sign, and the put transform `x ↦ -abs(x ?? 0)` is idempotent: applied to
its own put-channel output it returns the value unchanged. -/
theorem C5_put_nonpositive_idempotent (l : List ExposureRecord) (e : String)
    (r : Nat → Int) (v : Int) (hl : l ≠ []) (hv : v ∈ (buildSeries l e r).puts) :
    v ≤ 0 ∧ putTransform (some v) = v := by
  have hlen : l.length > 0 := List.length_pos.mpr hl
  simp only [buildSeries, if_pos hlen, List.mem_map] at hv
  obtain ⟨item, _, rfl⟩ := hv
  refine ⟨neg_nonpos.mpr (abs_nonneg _), ?_⟩
  simp [putTransform, jsNumOr, abs_abs]

/-- Witness for C5 at the concrete record `{strike:100, put:3}`: the
emitted put value is `-3`, which is non-positive and a fixed point of the
put transform. -/
theorem C5_witness :
    (([(⟨100, none, some 3, none⟩ : ExposureRecord)] ≠ []) ∧
      (-3 : Int) ∈ (buildSeries [⟨100, none, some 3, none⟩] "All" (fun _ => 0)).puts) ∧
    ((-3 : Int) ≤ 0 ∧ putTransform (some (-3)) = -3) :=
  ⟨⟨by decide, by decide⟩,
    C5_put_nonpositive_idempotent [⟨100, none, some 3, none⟩] "All" (fun _ => 0) (-3)
      (by decide) (by decide)⟩

/-- C6: `buildSeries` on the empty record sequence always returns the
sample-flagged placeholder series, and on every non-empty sequence the
result is never flagged as a sample. -/
theorem C6_isSample_iff_empty (e : String) (r : Nat → Int) :
    (buildSeries [] e r).isSample = true ∧
    ∀ l : List ExposureRecord, l ≠ [] → (buildSeries l e r).isSample = false := by
  refine ⟨rfl, fun l hl => ?_⟩
  have hlen : l.length > 0 := List.length_pos.mpr hl
  simp [buildSeries, if_pos hlen]

/-- Witness for C6: the empty input yields the sample flag, a concrete
one-record input does not. -/
theorem C6_witness :
    (buildSeries [] "All" (fun _ => 0)).isSample = true ∧
    (buildSeries [⟨100, none, none, none⟩] "All" (fun _ => 0)).isSample = false :=
  ⟨(C6_isSample_iff_empty "All" (fun _ => 0)).1,
    (C6_isSample_iff_empty "All" (fun _ => 0)).2 [⟨100, none, none, none⟩] (by decide)⟩

/-- C8: in the pause-gated variant, any trigger — the 60-second timer
callback `refreshData` or a direct data-load call — that occurs while
`pauseUpdates` is true is a silent no-op: the state (request log and DOM
alike) is returned unchanged, and the functions are total, so no error is
raised. -/
theorem C8_pause_gate_noop (s : DashState) (h : s.pauseUpdates = true) :
    refreshDataPaused s = s ∧ loadMarketMetrics s = s ∧ loadGammaExposureData s = s := by
  simp [refreshDataPaused, loadMarketMetrics, loadGammaExposureData, h]

/-- Witness for C8 at a concrete paused state. -/
theorem C8_witness :
    (DashState.mk true "All" true [] none none).pauseUpdates = true ∧
    refreshDataPaused (DashState.mk true "All" true [] none none) =
      DashState.mk true "All" true [] none none :=
  ⟨rfl, (C8_pause_gate_noop (DashState.mk true "All" true [] none none) rfl).1⟩

/-- C9: the plot data traces are identical under dark and light themes
(the theme only changes layout colors, never the numeric channels), and on
any non-empty input `buildSeries` is independent of the random oracle —
with no other input than the records and the expiry label, two runs on the
same input produce identical output. -/
theorem C9_determinism_theme_independence (l : List ExposureRecord) (e : String)
    (r : Nat → Int) :
    (createGammaExposurePlot true l e r).data = (createGammaExposurePlot false l e r).data ∧
    (l ≠ [] → ∀ r' : Nat → Int, buildSeries l e r = buildSeries l e r') := by
  refine ⟨rfl, fun hl r' => ?_⟩
  have hlen : l.length > 0 := List.length_pos.mpr hl
  simp [buildSeries, if_pos hlen]

/-- Witness for C9 at a concrete one-record input and two distinct
oracles. -/
theorem C9_witness :
    (createGammaExposurePlot true [⟨90, some 1, some 2, some 3⟩] "All"
        (fun _ => 0)).data =
      (createGammaExposurePlot false [⟨90, some 1, some 2, some 3⟩] "All"
        (fun _ => 0)).data ∧
    buildSeries [⟨90, some 1, some 2, some 3⟩] "All" (fun _ => 0) =
      buildSeries [⟨90, some 1, some 2, some 3⟩] "All" (fun _ => 7) :=
  ⟨(C9_determinism_theme_independence [⟨90, some 1, some 2, some 3⟩] "All" (fun _ => 0)).1,
    (C9_determinism_theme_independence [⟨90, some 1, some 2, some 3⟩] "All"
      (fun _ => 0)).2 (by decide) (fun _ => 7)⟩

/-- C1 counterexample: with the first cycle's fetches still unresolved
(no resolution transformer has been applied), a second `refreshData`
invocation is not skipped — the state changes again and the gamma-exposure
endpoint is fetched twice within the in-flight window, refuting the
single-flight claim. -/
theorem C1_counterexample :
    (refreshData (refreshData initState)).requests.count (Request.gammaExposure "All") = 2 ∧
    refreshData (refreshData initState) ≠ refreshData initState := by
  decide

/-- C1 (amended): `dashboard.js` has no in-flight guard at all — every
`refreshData` invocation unconditionally issues one market-metrics fetch
and one gamma-exposure fetch, so two invocations within the same in-flight
window execute two full cycles and fetch each endpoint twice. -/
theorem C1_no_single_flight (s : ClientState) :
    (refreshData s).requests =
      s.requests ++ [Request.marketMetrics, Request.gammaExposure s.selectedExpiry] ∧
    (refreshData (refreshData s)).requests =
      s.requests ++ [Request.marketMetrics, Request.gammaExposure s.selectedExpiry,
        Request.marketMetrics, Request.gammaExposure s.selectedExpiry] := by
  constructor <;> simp [refreshData, loadMarketData, initGammaExposureChart]

/-- C2 counterexample: from a state with a rendered series and no pending
fetch, a theme toggle issues one additional network request (the
gamma-exposure refetch inside `initGammaExposureChart`) and replaces the
rendered chart with the loading placeholder instead of re-rendering the
last-known series, refuting the zero-network-calls claim. -/
theorem C2_counterexample :
    (toggleTheme renderedState).requests.length = renderedState.requests.length + 1 ∧
    (toggleTheme renderedState).gamma = GammaView.loading :=
  ⟨rfl, rfl⟩

/-- C2 (amended): `toggleTheme` flips and persists the theme, but it does
not re-render from cached data — there is no cached series; it re-creates
the charts by calling `initGammaExposureChart`, which sets the exposure
card to its loading state and issues exactly one new gamma-exposure fetch.
The re-render with the new colors only happens when that fetch resolves. -/
theorem C2_theme_toggle_refetches (s : ClientState) :
    (toggleTheme s).darkTheme = !s.darkTheme ∧
    (toggleTheme s).storedTheme = some (if s.darkTheme then "light" else "dark") ∧
    (toggleTheme s).requests = s.requests ++ [Request.gammaExposure s.selectedExpiry] ∧
    (toggleTheme s).gamma = GammaView.loading := by
  cases hd : s.darkTheme <;> simp [toggleTheme, initGammaExposureChart, hd]

/-- C7: within one cycle, if the gamma-exposure fetch fails while the
market-metrics fetch succeeds, the spot-price display (and the change
displays) are still updated from the snapshot, the error state appears
only on the exposure card, the two resolution orders agree, and the error
does not survive the cycle boundary: a following cycle with a successful
exposure fetch renders a chart again. -/
theorem C7_partial_failure_isolated (s : ClientState) (m : MarketData) (e : FetchError)
    (recs : List ExposureRecord) (r r' : Nat → Int) :
    (resolveGammaExposure (Except.error e) r
        (resolveMarketMetrics (Except.ok m) (refreshData s))).spotValue =
      some m.spot_price ∧
    (resolveGammaExposure (Except.error e) r
        (resolveMarketMetrics (Except.ok m) (refreshData s))).changePct =
      some m.price_change_pct ∧
    (resolveGammaExposure (Except.error e) r
        (resolveMarketMetrics (Except.ok m) (refreshData s))).changeAbs =
      some m.price_change ∧
    (resolveGammaExposure (Except.error e) r
        (resolveMarketMetrics (Except.ok m) (refreshData s))).gamma =
      GammaView.errorMsg ∧
    resolveMarketMetrics (Except.ok m)
        (resolveGammaExposure (Except.error e) r (refreshData s)) =
      resolveGammaExposure (Except.error e) r
        (resolveMarketMetrics (Except.ok m) (refreshData s)) ∧
    (resolveGammaExposure (Except.ok recs) r'
        (refreshData (resolveGammaExposure (Except.error e) r
          (resolveMarketMetrics (Except.ok m) (refreshData s))))).gamma =
      GammaView.chart (createGammaExposurePlot s.darkTheme recs s.selectedExpiry r') := by
  refine ⟨rfl, rfl, rfl, rfl, rfl, rfl⟩

/-- On non-empty input, the strikes channel is the strike projection of
the decimated sorted records. -/
lemma buildSeries_strikes_pos (l : List ExposureRecord) (e : String) (r : Nat → Int)
    (hlen : l.length > 0) :
    (buildSeries l e r).strikes =
      (downsample (sortByStrike l)).map (fun item => item.strike_price) := by
  simp [buildSeries, if_pos hlen]

/-- On non-empty input, the calls channel is a projection of the decimated
sorted records. -/
lemma buildSeries_calls_pos (l : List ExposureRecord) (e : String) (r : Nat → Int)
    (hlen : l.length > 0) :
    (buildSeries l e r).calls =
      (downsample (sortByStrike l)).map (fun item => jsNumOr item.call_gamma_exposure) := by
  simp [buildSeries, if_pos hlen]

/-- On non-empty input, the puts channel is a projection of the decimated
sorted records. -/
lemma buildSeries_puts_pos (l : List ExposureRecord) (e : String) (r : Nat → Int)
    (hlen : l.length > 0) :
    (buildSeries l e r).puts =
      (downsample (sortByStrike l)).map (fun item => putTransform item.put_gamma_exposure) := by
  simp [buildSeries, if_pos hlen]

/-- On non-empty input, the net channel is a projection of the decimated
sorted records. -/
lemma buildSeries_net_pos (l : List ExposureRecord) (e : String) (r : Nat → Int)
    (hlen : l.length > 0) :
    (buildSeries l e r).net =
      (downsample (sortByStrike l)).map (fun item => jsNumOr item.total_gamma_exposure) := by
  simp [buildSeries, if_pos hlen]

/-- C4: for more than 20 input records, the output strike count is at most
`floor(N / step) + 1` with `step = max(1, floor(N / 20))`, the retained
strikes are exactly those whose post-sort index is a multiple of `step`,
and the output strike sequence is monotonically non-decreasing. -/
theorem C4_downsample_bound_sorted (l : List ExposureRecord) (e : String)
    (r : Nat → Int) (hl : l.length > 20) :
    (buildSeries l e r).strikes.length ≤ l.length / downsampleStep l.length + 1 ∧
    (buildSeries l e r).strikes =
      ((sortByStrike l).enum.filter
        (fun p => p.1 % downsampleStep l.length == 0)).map (fun p => p.2.strike_price) ∧
    List.Sorted (· ≤ ·) (buildSeries l e r).strikes := by
  have hlen : l.length > 0 := Nat.lt_trans (by decide) hl
  refine ⟨?_, ?_, ?_⟩
  · rw [buildSeries_strikes_pos l e r hlen, List.length_map, downsample_length,
      length_filter_range_mod, sortByStrike_length]
    split
    · simp
    · exact le_refl _
  · rw [buildSeries_strikes_pos l e r hlen]
    unfold downsample
    rw [List.map_map, sortByStrike_length]
    rfl
  · rw [buildSeries_strikes_pos l e r hlen]
    exact List.pairwise_map.mpr
      (List.Pairwise.sublist (downsample_sublist (sortByStrike l))
        (sortByStrike_sorted l))

/-- Witness for C4 at the concrete 21-record input. -/
theorem C4_witness :
    c4input.length > 20 ∧
    ((buildSeries c4input "All" (fun _ => 0)).strikes.length ≤
        c4input.length / downsampleStep c4input.length + 1 ∧
      (buildSeries c4input "All" (fun _ => 0)).strikes =
        ((sortByStrike c4input).enum.filter
          (fun p => p.1 % downsampleStep c4input.length == 0)).map
            (fun p => p.2.strike_price) ∧
      List.Sorted (· ≤ ·) (buildSeries c4input "All" (fun _ => 0)).strikes) :=
  ⟨by decide, C4_downsample_bound_sorted c4input "All" (fun _ => 0) (by decide)⟩

/-- C10: on every non-empty input the four output channels have equal
length (they are parallel projections of the same decimated list), and the
minimum strike of the input always appears in the output strikes: the
sorted head sits at index `0`, which every decimation step retains. -/
theorem C10_parallel_lengths_min_strike (l : List ExposureRecord) (e : String)
    (r : Nat → Int) (hl : l ≠ []) :
    ((buildSeries l e r).strikes.length = (buildSeries l e r).calls.length ∧
      (buildSeries l e r).strikes.length = (buildSeries l e r).puts.length ∧
      (buildSeries l e r).strikes.length = (buildSeries l e r).net.length) ∧
    ∃ m, m ∈ (buildSeries l e r).strikes ∧ ∀ rec ∈ l, m ≤ rec.strike_price := by
  have hlen : l.length > 0 := List.length_pos.mpr hl
  constructor
  · rw [buildSeries_strikes_pos l e r hlen, buildSeries_calls_pos l e r hlen,
      buildSeries_puts_pos l e r hlen, buildSeries_net_pos l e r hlen]
    simp [List.length_map]
  · have hsne : sortByStrike l ≠ [] := by
      intro h
      apply hl
      have hle := sortByStrike_length l
      rw [h] at hle
      exact List.length_eq_zero.mp hle.symm
    obtain ⟨a, t, hat⟩ := List.exists_cons_of_ne_nil hsne
    obtain ⟨t', hds⟩ := downsample_cons a t
    refine ⟨a.strike_price, ?_, sortByStrike_head_min hat⟩
    rw [buildSeries_strikes_pos l e r hlen, hat, hds]
    exact List.mem_map_of_mem _ (List.mem_cons_self a t')

/-- Witness for C10 at the concrete two-record example input, whose
minimum strike is `90`. -/
theorem C10_witness :
    exampleInput ≠ [] ∧
    (((buildSeries exampleInput "All" (fun _ => 0)).strikes.length =
        (buildSeries exampleInput "All" (fun _ => 0)).calls.length ∧
      (buildSeries exampleInput "All" (fun _ => 0)).strikes.length =
        (buildSeries exampleInput "All" (fun _ => 0)).puts.length ∧
      (buildSeries exampleInput "All" (fun _ => 0)).strikes.length =
        (buildSeries exampleInput "All" (fun _ => 0)).net.length) ∧
      ∃ m, m ∈ (buildSeries exampleInput "All" (fun _ => 0)).strikes ∧
        ∀ rec ∈ exampleInput, m ≤ rec.strike_price) :=
  ⟨by decide,
    C10_parallel_lengths_min_strike exampleInput "All" (fun _ => 0) (by decide)⟩

end LeafSense
